import Mathlib

/-!
HTS-Classifier chat client — shallow embedding

Shallow embedding of the chat-based classification client:

* the session state and the `sendMessage` / `newChat` operations of the
  live `App` component (the chat variant that owns `messages`, `sessionId`,
  `loading`, `error`);
* the message renderer `ChatMessage` (user bubble / question bubble /
  result block / nothing);
* the presentation utilities of the result cards: the USITC link
  formatters `formatForUSITC` and `formatHtsCodeForUSITC`, and the
  confidence badge mappings `confidenceColor` and `getConfidenceColor`.

JavaScript strings are modelled as Lean `String`; a JSON field that may be
absent (`undefined`) is modelled as an `Option`; JS truthiness on a string
field is `≠ ""` on present values and false on absent ones.  The `async`
body of `sendMessage` has a single suspension point (the awaited fetch), so
it is split into the synchronous prefix `sendMessageStart` (guard,
optimistic append, flag updates — everything before the fetch) and the
continuation `sendMessageComplete` (try-tail / catch / finally applied once
the fetch settles).  `sendMessageStart … = none` means the guard returned
early and no network request was issued.
-/

namespace HTSChat

/-- One ranked candidate as delivered by the backend (`results[i]` in the
response JSON).  `special_duty` and `unit` are optional in the contract. -/
structure ClassificationResult where
  hts_code : String
  description : String
  effective_duty : String
  special_duty : Option String
  unit : Option String
  confidence_score : Int
  chapter : String
  match_type : String
  duty_source : String
deriving DecidableEq

/-- A thread entry exactly as `App` constructs it:
`{ role: "user", content }` or
`{ role: "assistant", type: data.type, results: data.results,
   question: data.question, analysis: data.analysis }`;
the assistant fields are copied verbatim from the response and may be
absent. -/
inductive Message where
  | user (content : String)
  | assistant (type : Option String) (results : Option (List ClassificationResult))
      (question : Option String) (analysis : Option String)
deriving DecidableEq

/-- The parsed JSON body of a 2xx `/api/chat` response (`data` in the code).
Every field may be absent: the client performs no validation. -/
structure ChatResponse where
  session_id : Option String
  type : Option String
  results : Option (List ClassificationResult)
  question : Option String
  analysis : Option String
deriving DecidableEq

/-- The component state owned by `App`: the four `useState` hooks. -/
structure AppState where
  messages : List Message
  sessionId : Option String
  loading : Bool
  error : Option String
deriving DecidableEq

/-- State at mount: `[]`, `null`, `false`, `null`. -/
def initialState : AppState :=
  { messages := [], sessionId := none, loading := false, error := none }

/-- Core of the whitespace set removed by JS `String.prototype.trim`
(WhiteSpace ∪ LineTerminator: space, tab, LF, VT, FF, CR, NBSP, BOM). -/
def jsWhitespace (c : Char) : Bool :=
  c == ' ' || c == '\t' || c == '\n' || c == '\x0b' || c == '\x0c' ||
  c == '\r' || c == '\u00A0' || c == '\uFEFF'

/-- JS `text.trim()`: strip leading and trailing whitespace. -/
def jsTrim (s : String) : String :=
  ⟨((s.data.dropWhile jsWhitespace).reverse.dropWhile jsWhitespace).reverse⟩

/-- How the awaited part of the turn settles: `success data` is a 2xx
response whose body parsed as JSON (`data` being the parsed object);
`failure msg` is any thrown error caught by the `catch` block — the
`Server error ${status}` throw on non-2xx, a network error from `fetch`,
or a JSON parse error from `res.json()` — with `msg` the error's message. -/
inductive FetchOutcome where
  | success (data : ChatResponse)
  | failure (errMessage : String)
deriving DecidableEq

/-- Synchronous prefix of `sendMessage(text)`, up to the awaited fetch:
`if (!text.trim() || loading) return;` then the optimistic
`setMessages(prev => [...prev, {role:"user", content:text}])`,
`setLoading(true)`, `setError(null)`.  Returns `none` when the guard took
the early return (no state change, no network request), otherwise `some`
of the state in which the request goes out. -/
def sendMessageStart (s : AppState) (text : String) : Option AppState :=
  if jsTrim text = "" ∨ s.loading = true then
    none
  else
    some { s with
      messages := s.messages ++ [Message.user text],
      loading := true,
      error := none }

/-- JS truthiness of an optional string field: false for an absent field
(`undefined`) and for the empty string, true otherwise. -/
def strTruthy : Option String → Bool
  | some str => !(str == "")
  | none => false

/-- Continuation of `sendMessage` once the fetch settles, applied to the
then-current state.  On success: `if (data.session_id) setSessionId(...)`
(string truthiness: present and non-empty), then append the assistant
message copying `type`/`results`/`question`/`analysis` verbatim.  On
failure: `setError(err.message)`.  Both paths run the `finally`
`setLoading(false)`. -/
def sendMessageComplete (s : AppState) (o : FetchOutcome) : AppState :=
  match o with
  | .success data =>
      let s' :=
        if strTruthy data.session_id then { s with sessionId := data.session_id } else s
      { s' with
        messages := s'.messages ++
          [Message.assistant data.type data.results data.question data.analysis],
        loading := false }
  | .failure msg =>
      { s with error := some msg, loading := false }

/-- One whole `sendMessage(text)` turn whose fetch (when issued) settles
with outcome `o`.  When the guard returns early the outcome is irrelevant:
no request exists and the state is untouched. -/
def sendMessage (s : AppState) (text : String) (o : FetchOutcome) : AppState :=
  match sendMessageStart s text with
  | none => s
  | some s' => sendMessageComplete s' o

/-- The `newChat` handler: `setMessages([]); setSessionId(null); setError(null);`. -/
def newChat (s : AppState) : AppState :=
  { s with messages := [], sessionId := none, error := none }

/-- The conversation phases of the session state machine described by the
specification: `AwaitingResponse` while the loading flag is set, `Error`
when an error value is displayed, `Idle` otherwise. -/
inductive Phase where
  | idle
  | awaitingResponse
  | error
deriving DecidableEq

/-- Phase of a client state: loading ⇒ awaiting a response; otherwise an
error banner ⇒ error; otherwise idle. -/
def phase (s : AppState) : Phase :=
  if s.loading then Phase.awaitingResponse
  else if s.error.isSome then Phase.error
  else Phase.idle

/-- What `ChatMessage` renders for one thread entry. -/
inductive Rendered where
  | userBubble (content : String)
  | questionBubble (question : Option String)
  | resultBlock (results : Option (List ClassificationResult)) (analysis : Option String)
  | nothing
deriving DecidableEq

/-- Renderer `ChatMessage({message})`: user role → right-aligned bubble;
`type === "question"` → question bubble; `type === "result"` → block of
result cards (with optional analysis text); anything else falls through to
`return null` — no visual output at all. -/
def renderMessage : Message → Rendered
  | .user c => .userBubble c
  | .assistant t r q a =>
      if t = some "question" then .questionBubble q
      else if t = some "result" then .resultBlock r a
      else .nothing

/-- Model of JS `code.endsWith(t)` via `List.isSuffixOf`. -/
def jsEndsWith (s t : String) : Bool :=
  List.isSuffixOf t.data s.data

/-- JS `code.slice(0, -2)`: drop the last two characters. -/
def jsSliceDropTwo (s : String) : String :=
  ⟨s.data.dropLast.dropLast⟩

/-- Chat result card's link formatter:
`(code?.endsWith("00") ? code.slice(0, -2) : code)`. -/
def formatForUSITC (code : String) : String :=
  if jsEndsWith code "00" then jsSliceDropTwo code else code

/-- Older variant's link formatter: `if (!htsCode) return htsCode;` then the
same trailing-`"00"` strip. -/
def formatHtsCodeForUSITC (htsCode : String) : String :=
  if htsCode = "" then htsCode
  else if jsEndsWith htsCode "00" then jsSliceDropTwo htsCode
  else htsCode

/-- Chat result card's badge mapping `confidenceColor(score)`. -/
def confidenceColor (score : Int) : String :=
  if score ≥ 90 then "bg-green-100 text-green-800"
  else if score ≥ 70 then "bg-blue-100 text-blue-800"
  else "bg-gray-100 text-gray-800"

/-- Superseded result card's four-level badge mapping
`getConfidenceColor(score)`. -/
def getConfidenceColor (score : Int) : String :=
  if score ≥ 90 then "bg-green-100 text-green-800 border-green-200"
  else if score ≥ 80 then "bg-blue-100 text-blue-800 border-blue-200"
  else if score ≥ 70 then "bg-yellow-100 text-yellow-800 border-yellow-200"
  else "bg-gray-100 text-gray-800 border-gray-200"

/-- A response obeying the documented wire contract: it carries a
`session_id` string and either declares `type:"question"` together with a
`question`, or `type:"result"` together with `results`. -/
def Conforming (r : ChatResponse) : Prop :=
  (∃ sid, r.session_id = some sid) ∧
  ((r.type = some "question" ∧ ∃ q, r.question = some q) ∨
   (r.type = some "result" ∧ ∃ rs, r.results = some rs))

/-! ## Sample values used by the concrete instantiations -/

/-- A state with a request in flight: one optimistic user message shown,
spinner running. -/
def loadingState : AppState :=
  { messages := [Message.user "steel pipes"], sessionId := some "s7",
    loading := true, error := none }

/-- The classification candidate of the specification's round-trip
example. -/
def tshirtResult : ClassificationResult :=
  { hts_code := "6109.10.0000",
    description := "T-shirts, singlets and other vests, knitted or crocheted, of cotton",
    effective_duty := "16.5%",
    special_duty := some "Free (AU,BH,CL,CO,D,E,IL,JO,KR,MA,OM,P,PA,PE,S,SG)",
    unit := some "Dozen",
    confidence_score := 95,
    chapter := "61",
    match_type := "vector_search",
    duty_source := "usitc" }

/-- The specification's mocked result response
`{session_id:"s1", type:"result", results:[…]}`. -/
def mockResultResponse : ChatResponse :=
  { session_id := some "s1", type := some "result",
    results := some [tshirtResult], question := none, analysis := none }

/-! ## Helper lemmas -/

theorem sendMessageStart_eq_none (s : AppState) (text : String)
    (h : jsTrim text = "" ∨ s.loading = true) :
    sendMessageStart s text = none := by
  simp only [sendMessageStart, if_pos h]

theorem sendMessageStart_eq_some (s : AppState) (text : String)
    (h1 : jsTrim text ≠ "") (h2 : s.loading = false) :
    sendMessageStart s text =
      some { messages := s.messages ++ [Message.user text],
             sessionId := s.sessionId, loading := true, error := none } := by
  have h : ¬ (jsTrim text = "" ∨ s.loading = true) := by
    rintro (h | h)
    · exact h1 h
    · rw [h2] at h; exact Bool.false_ne_true h
  simp only [sendMessageStart, if_neg h]

theorem sendMessage_of_guard (s : AppState) (text : String) (o : FetchOutcome)
    (h : jsTrim text = "" ∨ s.loading = true) :
    sendMessage s text o = s := by
  simp only [sendMessage, sendMessageStart_eq_none s text h]

theorem string_data_append (s t : String) : (s ++ t).data = s.data ++ t.data := by
  cases s; cases t; rfl

theorem string_of_data (s : String) : String.mk s.data = s := by
  cases s; rfl

theorem jsEndsWith_append (p t : String) : jsEndsWith (p ++ t) t = true := by
  simp only [jsEndsWith, string_data_append, List.isSuffixOf_iff_suffix]
  exact List.suffix_append _ _

theorem jsSliceDropTwo_append_pair (p : String) (a b : Char) :
    jsSliceDropTwo (p ++ ⟨[a, b]⟩) = p := by
  have hd : (p ++ (⟨[a, b]⟩ : String)).data = p.data ++ [a, b] :=
    string_data_append p ⟨[a, b]⟩
  have h2 : (p.data ++ [a, b]).dropLast.dropLast = p.data := by
    have e : p.data ++ [a, b] = (p.data ++ [a]) ++ [b] := by simp
    rw [e, List.dropLast_concat, List.dropLast_concat]
  simp only [jsSliceDropTwo, hd, h2, string_of_data]

theorem append_pair_ne_empty (p : String) (a b : Char) :
    p ++ (⟨[a, b]⟩ : String) ≠ "" := by
  intro h
  have := congrArg String.data h
  rw [string_data_append] at this
  simp at this

theorem string_pair_eq : ("00" : String) = ⟨['0', '0']⟩ := rfl

/-! ## Claims -/

/-- C2: while a request is in flight (`loading = true`), every further
`sendMessage` invocation is a no-op — the guard returns before the fetch,
so no network request is issued (`sendMessageStart … = none`) and the state
is unchanged whatever the submitted text and whatever outcome a request
would have produced.  Hence at most one HTTP request is ever
outstanding. -/
theorem sendMessage_single_flight (s : AppState) (text : String)
    (o : FetchOutcome) (h : s.loading = true) :
    sendMessageStart s text = none ∧ sendMessage s text o = s :=
  ⟨sendMessageStart_eq_none s text (Or.inr h),
   sendMessage_of_guard s text o (Or.inr h)⟩

/-- Witness for C2 at a concrete in-flight state. -/
theorem sendMessage_single_flight_witness :
    sendMessageStart loadingState "LED light bulbs" = none ∧
    sendMessage loadingState "LED light bulbs"
      (FetchOutcome.failure "Failed to fetch") = loadingState :=
  sendMessage_single_flight loadingState "LED light bulbs"
    (FetchOutcome.failure "Failed to fetch") rfl

/-- C9: input that trims to the empty string is silently rejected: the
guard returns before the fetch, so no network request is issued and the
state is completely unchanged — in particular no message is appended and
no error is set. -/
theorem sendMessage_rejects_blank_input (s : AppState) (text : String)
    (o : FetchOutcome) (h : jsTrim text = "") :
    sendMessageStart s text = none ∧ sendMessage s text o = s :=
  ⟨sendMessageStart_eq_none s text (Or.inl h),
   sendMessage_of_guard s text o (Or.inl h)⟩

/-- Witness for C9 on whitespace-only input at the mount state. -/
theorem sendMessage_rejects_blank_input_witness :
    sendMessageStart initialState "  \t\n " = none ∧
    sendMessage initialState "  \t\n "
      (FetchOutcome.failure "Failed to fetch") = initialState :=
  sendMessage_rejects_blank_input initialState "  \t\n "
    (FetchOutcome.failure "Failed to fetch") (by decide)

/-- C3: on non-blank input submitted while no call is in flight, the
synchronous prefix of `sendMessage` (everything before the awaited fetch)
appends exactly one user message carrying the submitted text — and nothing
else — to the thread; and however the turn later settles (success of any
shape or failure), the final thread still extends
`s.messages ++ [UserMessage text]`: the optimistic message is never
removed. -/
theorem sendMessage_optimistic_append (s : AppState) (text : String)
    (h1 : jsTrim text ≠ "") (h2 : s.loading = false) :
    sendMessageStart s text =
      some { messages := s.messages ++ [Message.user text],
             sessionId := s.sessionId, loading := true, error := none } ∧
    ∀ o : FetchOutcome, ∃ rest : List Message,
      (sendMessage s text o).messages = s.messages ++ Message.user text :: rest := by
  have hstart := sendMessageStart_eq_some s text h1 h2
  refine ⟨hstart, ?_⟩
  intro o
  cases o with
  | success data =>
      refine ⟨[Message.assistant data.type data.results data.question data.analysis], ?_⟩
      simp only [sendMessage, hstart, sendMessageComplete]
      split <;> simp
  | failure msg =>
      exact ⟨[], by simp only [sendMessage, hstart, sendMessageComplete]⟩

/-- Witness for C3: concrete send from the mount state, resolved by a
failure; the optimistic user message is present and retained. -/
theorem sendMessage_optimistic_append_witness :
    sendMessageStart initialState "cotton t-shirts" =
      some { messages := [Message.user "cotton t-shirts"],
             sessionId := none, loading := true, error := none } ∧
    ∃ rest : List Message,
      (sendMessage initialState "cotton t-shirts"
          (FetchOutcome.failure "Failed to fetch")).messages =
        Message.user "cotton t-shirts" :: rest := by
  have h := sendMessage_optimistic_append initialState "cotton t-shirts"
    (by decide) rfl
  exact ⟨h.1, h.2 (FetchOutcome.failure "Failed to fetch")⟩

/-- C4: a transport failure (the `catch` path: thrown `Server error N` on a
non-2xx status, a network error, or a JSON parse error) sets the error
string to the error's message, appends no assistant message, leaves the
optimistic user message and all prior thread content in place, keeps the
stored session id, and clears the loading flag. -/
theorem sendMessage_transport_failure (s : AppState) (text e : String)
    (h1 : jsTrim text ≠ "") (h2 : s.loading = false) :
    sendMessage s text (FetchOutcome.failure e) =
      { messages := s.messages ++ [Message.user text],
        sessionId := s.sessionId, loading := false, error := some e } := by
  simp only [sendMessage, sendMessageStart_eq_some s text h1 h2, sendMessageComplete]

/-- Witness for C4: the specification's mocked 500-status scenario — the
thread retains only the user message and the error value is set. -/
theorem sendMessage_transport_failure_witness :
    sendMessage initialState "cotton t-shirts"
        (FetchOutcome.failure "Server error 500") =
      { messages := [Message.user "cotton t-shirts"],
        sessionId := none, loading := false, error := some "Server error 500" } := by
  have h := sendMessage_transport_failure initialState "cotton t-shirts"
    "Server error 500" (by decide) rfl
  simpa using h

/-- A state with a stored session id from an earlier turn, used to probe
whether a later response overwrites it. -/
def staleState : AppState :=
  { messages := [Message.user "first"], sessionId := some "old-session",
    loading := false, error := none }

/-- A contract-conforming question response whose `session_id` is the
empty string. -/
def emptySidResponse : ChatResponse :=
  { session_id := some "", type := some "question", results := none,
    question := some "Knitted or woven?", analysis := none }

/-- C5 counterexample: a completed successful response that conforms to the
contract (`session_id` is a string, `type:"question"` with a `question`)
but whose session id is the empty string.  The claim says the response's
session id is stored, overwriting any prior value; the code's truthiness
guard `if (data.session_id)` skips the store, so the stored id remains
`"old-session"` and differs from the response's. -/
theorem sendMessage_empty_session_id_kept :
    Conforming emptySidResponse ∧
    (sendMessage staleState "a follow-up" (FetchOutcome.success emptySidResponse)).sessionId
      = some "old-session" ∧
    emptySidResponse.session_id = some "" ∧
    (sendMessage staleState "a follow-up" (FetchOutcome.success emptySidResponse)).sessionId
      ≠ emptySidResponse.session_id :=
  ⟨⟨⟨"", rfl⟩, Or.inl ⟨rfl, ⟨"Knitted or woven?", rfl⟩⟩⟩,
   by decide, rfl, by decide⟩

/-- C5 (amended): for every conforming successful response whose session id
is non-empty, `sendMessage` stores that session id (overwriting any prior
value) and appends exactly one assistant message carrying the response's
`type`, `results`, `question` and `analysis` verbatim; the appended message
renders as a question bubble when `type = "question"` and as a result block
carrying `results` and the optional `analysis` when `type = "result"`.  A
conforming response whose session id is the empty string leaves the stored
id unchanged (JS truthiness guard) but is otherwise handled the same
way. -/
theorem sendMessage_success_stores_session (s : AppState) (text : String)
    (resp : ChatResponse) (sid : String)
    (h1 : jsTrim text ≠ "") (h2 : s.loading = false)
    (_hc : Conforming resp) (hsid : resp.session_id = some sid) :
    (sid ≠ "" →
      sendMessage s text (FetchOutcome.success resp) =
        { messages := s.messages ++
            [Message.user text,
             Message.assistant resp.type resp.results resp.question resp.analysis],
          sessionId := some sid, loading := false, error := none }) ∧
    (sid = "" →
      sendMessage s text (FetchOutcome.success resp) =
        { messages := s.messages ++
            [Message.user text,
             Message.assistant resp.type resp.results resp.question resp.analysis],
          sessionId := s.sessionId, loading := false, error := none }) ∧
    (resp.type = some "question" →
      renderMessage (Message.assistant resp.type resp.results resp.question resp.analysis)
        = Rendered.questionBubble resp.question) ∧
    (resp.type = some "result" →
      renderMessage (Message.assistant resp.type resp.results resp.question resp.analysis)
        = Rendered.resultBlock resp.results resp.analysis) := by
  have hstart := sendMessageStart_eq_some s text h1 h2
  refine ⟨?_, ?_, ?_, ?_⟩
  · intro hne
    have ht : strTruthy (some sid) = true := by simp [strTruthy, hne]
    simp only [sendMessage, hstart, sendMessageComplete, hsid, ht, if_true]
    simp
  · intro he
    have ht : strTruthy (some sid) = false := by simp [strTruthy, he]
    simp only [sendMessage, hstart, sendMessageComplete, hsid, ht, if_false]
    simp
  · intro htype
    simp [renderMessage, htype]
  · intro htype
    simp [renderMessage, htype]

/-- Witness for C5 (amended): the specification's round-trip — after
sending `"cotton t-shirts"` against the mocked
`{session_id:"s1", type:"result", results:[…]}` response, the thread is
`[UserMessage, ResultMessage]`, the stored session id is `"s1"`, and the
appended message renders as a result block. -/
theorem sendMessage_success_stores_session_witness :
    sendMessage initialState "cotton t-shirts"
        (FetchOutcome.success mockResultResponse) =
      { messages := [Message.user "cotton t-shirts",
          Message.assistant (some "result") (some [tshirtResult]) none none],
        sessionId := some "s1", loading := false, error := none } ∧
    renderMessage (Message.assistant (some "result") (some [tshirtResult]) none none)
      = Rendered.resultBlock (some [tshirtResult]) none := by
  have h := sendMessage_success_stores_session initialState "cotton t-shirts"
    mockResultResponse "s1" (by decide) rfl
    (⟨⟨"s1", rfl⟩, Or.inr ⟨rfl, ⟨[tshirtResult], rfl⟩⟩⟩ : Conforming mockResultResponse) rfl
  refine ⟨?_, ?_⟩
  · simpa [mockResultResponse] using h.1 (by decide)
  · simpa [mockResultResponse] using h.2.2.2 rfl

/-- A state captured mid-flight with an error banner also present: a
request is outstanding (`loading = true`). -/
def midFlightState : AppState :=
  { messages := [Message.user "rubber tires"], sessionId := some "s3",
    loading := true, error := some "Server error 500" }

/-- C6 counterexample: `newChat` invoked while a request is in flight.  It
does reset the thread, the session id and the error, but it leaves the
loading flag set, so the session is still `AwaitingResponse` — not the
`Idle` state the claim promises from any state. -/
theorem newChat_mid_flight_not_idle :
    newChat midFlightState =
      { messages := [], sessionId := none, loading := true, error := none } ∧
    phase (newChat midFlightState) = Phase.awaitingResponse ∧
    phase (newChat midFlightState) ≠ Phase.idle :=
  ⟨rfl, rfl, by decide⟩

/-- C6 (amended): `startNewChat()`, invoked in any state and after any
sequence of sends, resets the message thread to empty, clears the session
id and clears any error; the loading flag is left as it was, so the
session returns to the `Idle` state exactly when no request is in
flight. -/
theorem newChat_resets_conversation (s : AppState) :
    newChat s =
      { messages := [], sessionId := none, loading := s.loading, error := none } ∧
    (s.loading = false → phase (newChat s) = Phase.idle) := by
  refine ⟨rfl, ?_⟩
  intro h
  simp [phase, newChat, h]

/-- Witness for C6 (amended): `newChat` from an errored idle state reaches
`Idle` with an empty thread and no session id. -/
theorem newChat_resets_conversation_witness :
    newChat { messages := [Message.user "x"], sessionId := some "s9",
              loading := false, error := some "Server error 404" } =
      { messages := [], sessionId := none, loading := false, error := none } ∧
    phase (newChat { messages := [Message.user "x"], sessionId := some "s9",
                     loading := false, error := some "Server error 404" })
      = Phase.idle := by
  have h := newChat_resets_conversation
    { messages := [Message.user "x"], sessionId := some "s9",
      loading := false, error := some "Server error 404" }
  exact ⟨h.1, h.2 rfl⟩

/-- A state with one send outstanding, as left by the synchronous prefix of
`sendMessage`. -/
def pendingState : AppState :=
  { messages := [Message.user "LED light bulbs"], sessionId := some "s2",
    loading := true, error := none }

/-- A question response arriving after the user already started a new
chat. -/
def lateQuestionResponse : ChatResponse :=
  { session_id := some "s9", type := some "question", results := none,
    question := some "Household or industrial use?", analysis := none }

/-- C10: `newChat` touches only `messages`, `sessionId` and `error` — the
loading flag keeps its value, so a request pending at the time is not
cancelled; and when that request's successful response (with a non-empty
session id) later resolves, the completion handler still stores the
response's session id and appends its assistant message to the freshly
cleared thread, which therefore begins with an assistant message and no
preceding user message. -/
theorem newChat_keeps_pending_request (s : AppState) (resp : ChatResponse)
    (sid : String) (hload : s.loading = true)
    (hsid : resp.session_id = some sid) (hne : sid ≠ "") :
    newChat s =
      { messages := [], sessionId := none, loading := true, error := none } ∧
    sendMessageComplete (newChat s) (FetchOutcome.success resp) =
      { messages :=
          [Message.assistant resp.type resp.results resp.question resp.analysis],
        sessionId := some sid, loading := false, error := none } := by
  have h1 : newChat s =
      { messages := [], sessionId := none, loading := true, error := none } := by
    have : newChat s =
        { messages := [], sessionId := none, loading := s.loading, error := none } := rfl
    rw [this, hload]
  have ht : strTruthy (some sid) = true := by simp [strTruthy, hne]
  refine ⟨h1, ?_⟩
  rw [h1]
  simp only [sendMessageComplete, hsid, ht, if_true]
  simp

/-- Witness for C10: new chat started while a send is pending; the late
question response then opens the fresh thread with an assistant message. -/
theorem newChat_keeps_pending_request_witness :
    newChat pendingState =
      { messages := [], sessionId := none, loading := true, error := none } ∧
    sendMessageComplete (newChat pendingState)
        (FetchOutcome.success lateQuestionResponse) =
      { messages := [Message.assistant (some "question") none
          (some "Household or industrial use?") none],
        sessionId := some "s9", loading := false, error := none } := by
  have h := newChat_keeps_pending_request pendingState lateQuestionResponse "s9"
    rfl rfl (by decide)
  exact ⟨h.1, by simpa [lateQuestionResponse] using h.2⟩

/-- A well-formed, successful response whose declared `type` is neither
`"question"` nor `"result"`. -/
def unknownTypeResponse : ChatResponse :=
  { session_id := some "s1", type := some "unrecognized", results := none,
    question := none, analysis := none }

/-- C1 (code bug): on a completed 2xx, well-formed JSON response whose
`type` is neither `"question"` nor `"result"`, the claim requires a
visible error exactly as for a transport failure and no appended assistant
message.  The code instead appends an assistant message carrying the
unknown type verbatim and leaves the error `none` (no banner is shown),
and `ChatMessage` renders that appended message as nothing — the turn is
silently dropped.  The same unconditional append happens for
`type:"result"` without `results` and `type:"question"` without
`question`. -/
theorem sendMessage_unknown_type_silently_dropped :
    sendMessage initialState "laptops" (FetchOutcome.success unknownTypeResponse) =
      { messages := [Message.user "laptops",
          Message.assistant (some "unrecognized") none none none],
        sessionId := some "s1", loading := false, error := none } ∧
    (sendMessage initialState "laptops"
        (FetchOutcome.success unknownTypeResponse)).error = none ∧
    renderMessage (Message.assistant (some "unrecognized") none none none)
      = Rendered.nothing ∧
    (sendMessage initialState "laptops"
        (FetchOutcome.failure "Server error 500")).error = some "Server error 500" :=
  ⟨by decide, by decide, by decide, by decide⟩

/-- C7: both USITC verification-link formatters strip exactly one trailing
`"00"` pair from a code that ends in `"00"` and pass any other code
through unchanged. -/
theorem usitc_link_strips_trailing_pair (p code : String)
    (h : jsEndsWith code "00" = false) :
    formatForUSITC (p ++ "00") = p ∧
    formatHtsCodeForUSITC (p ++ "00") = p ∧
    formatForUSITC code = code ∧
    formatHtsCodeForUSITC code = code := by
  have hend : jsEndsWith (p ++ "00") "00" = true := jsEndsWith_append p "00"
  have hdrop : jsSliceDropTwo (p ++ "00") = p := by
    rw [string_pair_eq]
    exact jsSliceDropTwo_append_pair p '0' '0'
  have hne : p ++ "00" ≠ "" := by
    rw [string_pair_eq]
    exact append_pair_ne_empty p '0' '0'
  refine ⟨?_, ?_, ?_, ?_⟩
  · simp only [formatForUSITC, hend, if_true, hdrop]
  · simp only [formatHtsCodeForUSITC, hne, if_false, hend, if_true, hdrop]
  · simp only [formatForUSITC, h]
    simp
  · unfold formatHtsCodeForUSITC
    split
    · rfl
    · simp only [h]
      simp

/-- Witness for C7: the three example codes from the specification. -/
theorem usitc_link_strips_trailing_pair_witness :
    formatForUSITC "6109.10.0000" = "6109.10.00" ∧
    formatHtsCodeForUSITC "7113.19.5000" = "7113.19.50" ∧
    formatForUSITC "1234.56.78" = "1234.56.78" ∧
    formatHtsCodeForUSITC "1234.56.78" = "1234.56.78" := by
  have h1 := usitc_link_strips_trailing_pair "6109.10.00" "1234.56.78" (by decide)
  have h2 := usitc_link_strips_trailing_pair "7113.19.50" "1234.56.78" (by decide)
  have e1 : "6109.10.00" ++ "00" = "6109.10.0000" := by decide
  have e2 : "7113.19.50" ++ "00" = "7113.19.5000" := by decide
  refine ⟨?_, ?_, h1.2.2.1, h1.2.2.2⟩
  · rw [← e1]; exact h1.1
  · rw [← e2]; exact h2.2.1

/-- C8: the live badge mapping has exactly three tiers — scores of 90 and
above get the highest (green) tier, scores from 70 to 89 the middle (blue)
tier, scores below 70 the lowest (gray) tier, and no other class is ever
produced. -/
theorem confidence_badge_three_tiers (score : Int) :
    (confidenceColor score = "bg-green-100 text-green-800" ↔ 90 ≤ score) ∧
    (confidenceColor score = "bg-blue-100 text-blue-800" ↔ 70 ≤ score ∧ score < 90) ∧
    (confidenceColor score = "bg-gray-100 text-gray-800" ↔ score < 70) ∧
    (confidenceColor score = "bg-green-100 text-green-800" ∨
     confidenceColor score = "bg-blue-100 text-blue-800" ∨
     confidenceColor score = "bg-gray-100 text-gray-800") := by
  by_cases h90 : 90 ≤ score
  · have e : confidenceColor score = "bg-green-100 text-green-800" := by
      simp [confidenceColor, h90]
    refine ⟨⟨fun _ => h90, fun _ => e⟩, ?_, ?_, Or.inl e⟩
    · constructor
      · intro h; rw [e] at h; exact absurd h (by decide)
      · rintro ⟨-, hlt⟩; omega
    · constructor
      · intro h; rw [e] at h; exact absurd h (by decide)
      · intro hlt; omega
  · by_cases h70 : 70 ≤ score
    · have e : confidenceColor score = "bg-blue-100 text-blue-800" := by
        simp [confidenceColor, h90, h70]
      refine ⟨?_, ⟨fun _ => ⟨h70, by omega⟩, fun _ => e⟩, ?_, Or.inr (Or.inl e)⟩
      · constructor
        · intro h; rw [e] at h; exact absurd h (by decide)
        · intro h; omega
      · constructor
        · intro h; rw [e] at h; exact absurd h (by decide)
        · intro hlt; omega
    · have e : confidenceColor score = "bg-gray-100 text-gray-800" := by
        simp [confidenceColor, h90, h70]
      refine ⟨?_, ?_, ⟨fun _ => by omega, fun _ => e⟩, Or.inr (Or.inr e)⟩
      · constructor
        · intro h; rw [e] at h; exact absurd h (by decide)
        · intro h; omega
      · constructor
        · intro h; rw [e] at h; exact absurd h (by decide)
        · rintro ⟨hge, -⟩; omega

end HTSChat
